import Mathlib

/-!
Verification development for the Haptics-Project repository.

Part 1 embeds the embedded motor controller
(src/pico_upload/motor_control.py and the command interpreter in
src/pico_upload/main.py).  Part 2 embeds the bridge supervisor loop
(src/integrated_lathe_controller.py).

Python floats are modelled as real numbers on the motor side (where
 sin and sqrt appear) and as rationals on the bridge side (where all
arithmetic is comparisons), machine time stamps as integers
(milliseconds / microseconds), and Python `int()` as truncation
toward zero.
-/

namespace Haptics

/-- Python `int()` applied to a float: truncation toward zero. -/
noncomputable def pyInt (x : ℝ) : ℤ := if 0 ≤ x then ⌊x⌋ else -⌊-x⌋

/-! ## Motor controller constants (motor_control.py `__init__`) -/

/-- `self.CPR = 64` (motor_control.py:36). -/
def CPR : ℝ := 64

/-- `self.gear_ratio = 30.0` (motor_control.py:37). -/
def gearRatio : ℝ := 30.0

/-- `self.counts_per_output_rev = self.CPR * self.gear_ratio` (motor_control.py:38). -/
def countsPerOutputRev : ℝ := CPR * gearRatio

/-- `self.max_pwm = 65535` (motor_control.py:83). -/
def maxPwm : ℝ := 65535

/-- `self.min_pwm = 1000` (motor_control.py:84). -/
def minPwm : ℝ := 1000

/-- `self.max_brake_scale = 0.6` (motor_control.py:86).  Defined in the
source with the comment "Limit the braking duty cycle to avoid
overheating", but never read anywhere in the repository. -/
def maxBrakeScale : ℝ := 0.6

/-- `self.wall_release_tol_deg = 0.25` (motor_control.py:73). -/
def wallReleaseTolDeg : ℝ := 0.25

/-- Mutable state of `MotorController` (motor_control.py:24-94).
Pin output state (`motor_ena` duty, `motor_in1`, `motor_in2`) is kept
inside the state so that actuation effects are observable. -/
structure MotorState where
  encoderCount : ℤ
  lastAState : Bool
  lastBState : Bool
  lastTimeUs : ℤ
  lastCount : ℤ
  currentVelocity : ℝ
  targetPosition : ℝ
  targetVelocity : ℝ
  controlMode : String
  lastMotionSign : ℤ
  kp : ℝ
  ki : ℝ
  kd : ℝ
  integralError : ℝ
  lastPositionError : ℝ
  wallEngaged : Bool
  wallContactPositionDeg : ℝ
  wallDirection : ℤ
  wallForceNewtons : ℝ
  lastWallError : ℝ
  lastWallTimeMs : ℤ
  prevPositionDeg : ℝ
  hapticBrakePercent : ℝ
  forceCommand : ℝ
  motorEnaDuty : ℤ
  motorIn1 : Bool
  motorIn2 : Bool

/-- The state built by `MotorController.__init__` (motor_control.py:25-94).
`a0`/`b0` are the encoder pin levels sampled at boot; boot time stamps
are taken as 0.  `force_command` is not assigned in `__init__` at all
(it first appears in `set_spring_wall` / `set_force_feedback`); it is
modelled as 0 here. -/
def mcInit (a0 b0 : Bool) : MotorState :=
  { encoderCount := 0
    lastAState := a0
    lastBState := b0
    lastTimeUs := 0
    lastCount := 0
    currentVelocity := 0
    targetPosition := 0
    targetVelocity := 0
    controlMode := "velocity"
    lastMotionSign := 0
    kp := 2.0
    ki := 0.1
    kd := 0.05
    integralError := 0
    lastPositionError := 0
    wallEngaged := false
    wallContactPositionDeg := 0
    wallDirection := 1
    wallForceNewtons := 0
    lastWallError := 0
    lastWallTimeMs := 0
    prevPositionDeg := 0
    hapticBrakePercent := 0
    forceCommand := 0
    motorEnaDuty := 0
    motorIn1 := false
    motorIn2 := false }

/-- `encoder_callback` (motor_control.py:96-109): sample both channels,
adjust the count only when channel A changed, then store both levels. -/
def encoderCallback (s : MotorState) (aState bState : Bool) : MotorState :=
  let s1 :=
    if aState ≠ s.lastAState then
      if aState = bState then { s with encoderCount := s.encoderCount + 1 }
      else { s with encoderCount := s.encoderCount - 1 }
    else s
  { s1 with lastAState := aState, lastBState := bState }

/-- `get_position_degrees` (motor_control.py:111-114). -/
noncomputable def getPositionDegrees (s : MotorState) : ℝ :=
  ((s.encoderCount : ℝ) / countsPerOutputRev) * 360.0

/-- `get_velocity_rpm` (motor_control.py:116-134).  `nowUs` is
`time.ticks_us()`.  Returns the updated state and the returned RPM.
Note the source computes `rev_per_sec = count_diff / counts_per_output_rev`
without dividing by `dt`; the embedding reproduces this as written. -/
noncomputable def getVelocityRpm (s : MotorState) (nowUs : ℤ) : MotorState × ℝ :=
  let dt : ℝ := ((nowUs - s.lastTimeUs : ℤ) : ℝ) / 1000000.0
  if dt > 0.01 then
    let countDiff := s.encoderCount - s.lastCount
    let revPerSec := (countDiff : ℝ) / countsPerOutputRev
    let v := revPerSec * 60.0
    let sign := if countDiff > 0 then 1 else if countDiff < 0 then -1 else s.lastMotionSign
    ({ s with currentVelocity := v, lastMotionSign := sign,
              lastTimeUs := nowUs, lastCount := s.encoderCount }, v)
  else (s, s.currentVelocity)

/-- The braking duty fraction computed by `_apply_haptic_brake`
(motor_control.py:186-197): clamp the brake level to 1, apply the
Hapkit mapping `sqrt(brake/0.03)`, then clamp the result to 1.
The source never applies `max_brake_scale` here. -/
noncomputable def brakeDutyFloat (hapticBrakePercent : ℝ) : ℝ :=
  let brakePercent := min hapticBrakePercent 1.0
  let dutyFloat := if brakePercent > 0 then Real.sqrt (brakePercent / 0.03) else 0
  min dutyFloat 1.0

/-- `_apply_haptic_brake` (motor_control.py:172-203).  Returns `none`
when no braking was applied (the source returns `False`), otherwise the
post-braking state (the source returns `True`). -/
noncomputable def applyHapticBrake (s : MotorState) : Option MotorState :=
  if s.hapticBrakePercent ≤ 0 then none
  else
    let s1 := { s with motorIn1 := true, motorIn2 := true }
    let dutyFloat := brakeDutyFloat s1.hapticBrakePercent
    some { s1 with motorEnaDuty := pyInt (dutyFloat * (maxPwm - minPwm) + minPwm) }

/-- `set_motor_speed` (motor_control.py:136-170). -/
noncomputable def setMotorSpeed (s : MotorState) (speedRpm : ℝ) : MotorState :=
  let s0 := { s with targetVelocity := speedRpm }
  match applyHapticBrake s0 with
  | some s1 => s1
  | none =>
    if |speedRpm| < 0.1 then
      { s0 with motorEnaDuty := 0, motorIn1 := false, motorIn2 := false, lastMotionSign := 0 }
    else
      let s1 :=
        if speedRpm > 0 then { s0 with motorIn1 := true, motorIn2 := false, lastMotionSign := 1 }
        else { s0 with motorIn1 := false, motorIn2 := true, lastMotionSign := -1 }
      let maxRpm : ℝ := 150.0
      let dutyPercent := min (|speedRpm| / maxRpm) 1.0
      { s1 with motorEnaDuty := pyInt (minPwm + (maxPwm - minPwm) * dutyPercent) }

/-- `set_haptic_feedback` (motor_control.py:254-261).  The body stores
`max(0.0, min(1.0, 1.0 - brake_percent))`: the input is inverted before
clamping, although the docstring says 0.0 is no braking and 1.0 full
braking. -/
def setHapticFeedback (s : MotorState) (brakePercent : ℝ) : MotorState :=
  { s with hapticBrakePercent := max 0.0 (min 1.0 (1.0 - brakePercent)) }

/-- The `pos <deg>` branch of the command interpreter
(src/pico_upload/main.py:52-60): store the target, switch to position
mode, and reset the PID integral and last error. -/
def posCommand (s : MotorState) (targetPos : ℝ) : MotorState :=
  { s with targetPosition := targetPos
           controlMode := "position"
           integralError := 0
           lastPositionError := 0 }

/-- `set_spring_wall` (motor_control.py:307-359), whose Python
signature is `def set_spring_wall(self, force_newtons, wall_flag=1)`.
`nowUs`/`nowMs` are the clocks read by `get_velocity_rpm` /
`time.ticks_ms()` during the call. -/
noncomputable def setSpringWall (s : MotorState) (forceNewtons wallFlag : ℝ)
    (nowUs nowMs : ℤ) : MotorState :=
  let wallForce := max 0.0 (min forceNewtons 50.0)
  let s0 := { s with wallForceNewtons := wallForce, forceCommand := wallForce }
  let directionHint : Option ℤ :=
    if |wallFlag| > 1.0 then some (if wallFlag < 0 then -1 else 1) else none
  let active := wallForce > 0 ∧ wallFlag ≠ 0
  if ¬active then
    { s0 with wallEngaged := false, hapticBrakePercent := 0, controlMode := "velocity",
              motorEnaDuty := 0, motorIn1 := false, motorIn2 := false }
  else
    let s1 :=
      if s0.wallEngaged = false then
        let contact := getPositionDegrees s0
        let s2 := { s0 with wallContactPositionDeg := contact, prevPositionDeg := contact }
        let vr := getVelocityRpm s2 nowUs
        let s3 := vr.1
        let velocityHint := if |vr.2| < 0.5 then (s3.lastMotionSign : ℝ) else vr.2
        let dir :=
          match directionHint with
          | some d => d
          | none => if velocityHint ≥ 0 then 1 else -1
        { s3 with wallDirection := dir, lastWallError := 0, lastWallTimeMs := nowMs }
      else
        match directionHint with
        | some d => { s0 with wallDirection := d }
        | none => s0
    { s1 with wallEngaged := true, controlMode := "virtual_wall", hapticBrakePercent := 0 }

/-- A Python positional call to the bound method `set_spring_wall`,
whose parameter list (motor_control.py:307) is
`(force_newtons, wall_flag=1)`: one or two positional arguments
dispatch to the body, any other count raises `TypeError`. -/
noncomputable def callSetSpringWall (s : MotorState) (args : List ℝ)
    (nowUs nowMs : ℤ) : Except Unit MotorState :=
  match args with
  | [f] => Except.ok (setSpringWall s f 1 nowUs nowMs)
  | [f, fl] => Except.ok (setSpringWall s f fl nowUs nowMs)
  | _ => Except.error ()

/-- Number of positional arguments passed at the `set_spring_wall` call
site in the command interpreter (src/pico_upload/main.py:82):
`motor.set_spring_wall(force, wall_active, freq, yield_force)`. -/
def springWallCallArgCount : ℕ := 4

/-- Number of parameters `set_spring_wall` accepts besides `self`
(motor_control.py:307): `force_newtons` and `wall_flag`. -/
def setSpringWallParamCount : ℕ := 2

/-- Reply category of a command-interpreter line. -/
inductive Reply
  | ok
  | err
  deriving DecidableEq

/-- The well-formed-argument path of the `spring_wall` branch of the
command interpreter (src/pico_upload/main.py:66-86): after parsing
`force`, `wall_active` and the optional `freq`/`yield_force` (defaults
10.0 and 50.0), the handler calls
`motor.set_spring_wall(force, wall_active, freq, yield_force)` and on
success prints an `OK:` line.  The inner `except` catches only
`ValueError`; a `TypeError` from the call escapes to the outer handler
(main.py:123-124), which prints an `ERROR:` line, leaving the motor
state untouched. -/
noncomputable def mainSpringWallCmd (s : MotorState) (force : ℝ) (wallActive : ℤ)
    (freq yieldForce : ℝ) (nowUs nowMs : ℤ) : MotorState × Reply :=
  match callSetSpringWall s [force, (wallActive : ℝ), freq, yieldForce] nowUs nowMs with
  | Except.ok s1 => (s1, Reply.ok)
  | Except.error _ => (s, Reply.err)

/-! ## Virtual wall renderer (motor_control.py:361-453) -/

/-- Penetration depth past the wall surface (motor_control.py:367-370):
`(current_pos - wall_contact_position_deg) * wall_direction`. -/
noncomputable def wallPenetrationDeg (s : MotorState) : ℝ :=
  (getPositionDegrees s - s.wallContactPositionDeg) * (s.wallDirection : ℝ)

/-- Spring force for a penetration in degrees (motor_control.py:382-398):
`x = (penetration_deg * pi / 180) * rh` with `rh = 0.05`, then
`force = k * x` with `k = 200.0`. -/
noncomputable def wallSpringForce (penetrationDeg : ℝ) : ℝ :=
  200.0 * ((penetrationDeg * Real.pi / 180.0) * 0.05)

/-- The sinusoid sampled in the vibration term (motor_control.py:404-407):
`sin(2 * pi * vib_freq * t_sec)` with `vib_freq = 10.0` hardcoded and
`t_sec = time.ticks_ms() / 1000.0`. -/
noncomputable def wallTextureFactor (nowMs : ℤ) : ℝ :=
  Real.sin (2 * Real.pi * 10.0 * ((nowMs : ℝ) / 1000.0))

/-- The vibration term (motor_control.py:407):
`force * vib_amp_scale * sin(...)` with `vib_amp_scale = 1.0`. -/
noncomputable def wallVibration (penetrationDeg : ℝ) (nowMs : ℤ) : ℝ :=
  wallSpringForce penetrationDeg * 1.0 * wallTextureFactor nowMs

/-- Total rendered force (motor_control.py:398-409): spring force plus
vibration, clamped to be non-negative. -/
noncomputable def wallRenderedForce (penetrationDeg : ℝ) (nowMs : ℤ) : ℝ :=
  max 0.0 (wallSpringForce penetrationDeg + wallVibration penetrationDeg nowMs)

/-- Drive duty fraction while penetrating (motor_control.py:412-427):
`torque_motor = force * rh / gear_ratio`, then the Hapkit mapping
`sqrt(torque_motor / 0.03)` when the torque is positive, clamped to 1. -/
noncomputable def wallDutyCycle (penetrationDeg : ℝ) (nowMs : ℤ) : ℝ :=
  let force := wallRenderedForce penetrationDeg nowMs
  let torqueHandle := force * 0.05
  let torqueMotor := torqueHandle / gearRatio
  let dutyCycle := if torqueMotor > 0 then Real.sqrt (torqueMotor / 0.03) else 0
  min dutyCycle 1.0

/-- `virtual_wall_control` (motor_control.py:361-451): one control tick
of the engaged wall.  `nowMs` is the `time.ticks_ms()` sample used for
the vibration term. -/
noncomputable def virtualWallControl (s : MotorState) (nowMs : ℤ) : MotorState :=
  if s.wallEngaged = false then s
  else
    let penetrationDeg := wallPenetrationDeg s
    if penetrationDeg < wallReleaseTolDeg then
      { s with motorEnaDuty := 0, motorIn1 := false, motorIn2 := false }
    else
      let dutyCycle := wallDutyCycle penetrationDeg nowMs
      let pushPositive := s.wallDirection = -1
      let s1 :=
        if pushPositive then { s with motorIn1 := true, motorIn2 := false }
        else { s with motorIn1 := false, motorIn2 := true }
      { s1 with motorEnaDuty := pyInt (minPwm + (maxPwm - minPwm) * dutyCycle) }

/-- The texture term as the specification words it ("frequency equal to
the vibration frequency configured for the wall", "amplitude equal to
the current spring force magnitude", "against wall-clock time"):
`springForce * sin(2 * pi * freqHz * t)`.  Used only to compare the
spec reading of claim C3 with the source behaviour. -/
noncomputable def specTextureTerm (freqHz springForce : ℝ) (nowMs : ℤ) : ℝ :=
  springForce * Real.sin (2 * Real.pi * freqHz * ((nowMs : ℝ) / 1000.0))

/-! ## Bridge supervisor (src/integrated_lathe_controller.py)

The bridge is modelled in its normal deployment: `pico_serial` is
connected and `motor_controller` is `None`, so `send_to_pico` writes to
the serial link, `perform_safety_checks` is a no-op (both of its
branches are guarded by `if self.motor_controller`), and step 7 of the
control loop is skipped.  Bridge floats carry no trigonometry, so they
are modelled as rationals, keeping every definition executable. -/

/-- `motor_control` actions recognized by `process_gui_command`
(integrated_lathe_controller.py:282-304). -/
inductive MotorAction
  | forward
  | reverse
  | stop
  | speed (value : ℚ)
  | position (delta : ℚ)
  deriving DecidableEq

/-- Structured GUI commands (integrated_lathe_controller.py:263-362).
`unknown` stands for any truthy parsed object whose `type` is missing
or unrecognized: `process_gui_command` ignores it. -/
inductive GuiCmd
  | statusRequest
  | modeChange (mode skillLevel : String)
  | emergencyStopCmd
  | motorControl (action : MotorAction)
  | zeroPosition (axis : String)
  | axisSelect (axis : String)
  | hapticFeedback (active : Bool) (force freq yieldForce : ℚ)
  | hapticVector (fx fz freq : ℚ)
  | unknown
  deriving DecidableEq

/-- One line of a GUI socket batch, after `data.decode().strip().split('\n')`
(integrated_lathe_controller.py:152).  A `forceLine` carries the
results of `float()` on the comma-separated components after `FORCE:`;
a `jsonLine` carries the result of `json.loads` (`none` when it raises
`JSONDecodeError`). -/
inductive GuiLine
  | empty
  | forceLine (parts : List (Option ℚ))
  | jsonLine (parsed : Option GuiCmd)
  deriving DecidableEq

/-- Per-line parsing inside `read_gui_commands`
(integrated_lathe_controller.py:155-185): empty lines are skipped; a
`FORCE:` line yields a `haptic_vector` command when it has at least
three components and the first three parse as floats (a `ValueError`
skips the line); any other line yields whatever `json.loads` produced,
or nothing on a decode error. -/
def parseGuiLine : GuiLine → Option GuiCmd
  | GuiLine.empty => none
  | GuiLine.forceLine parts =>
    match parts with
    | some fx :: some fz :: some freq :: _ => some (GuiCmd.hapticVector fx fz freq)
    | _ => none
  | GuiLine.jsonLine parsed => parsed

/-- The batch loop of `read_gui_commands`
(integrated_lathe_controller.py:153-187): `last_valid_cmd` starts as
`None` and is overwritten by each line that parses. -/
def readGuiCommands (lines : List GuiLine) : Option GuiCmd :=
  lines.foldl (fun lastValidCmd l => (parseGuiLine l).or lastValidCmd) none

/-! ### Bridge loop constants (integrated_lathe_controller.py:70, 442-458) -/

/-- `self.heartbeat_timeout = 5.0` (integrated_lathe_controller.py:70). -/
def heartbeatTimeout : ℚ := 5

/-- `heartbeat_check_interval = 1.0` (integrated_lathe_controller.py:454). -/
def heartbeatCheckInterval : ℚ := 1

/-- `status_interval = 0.033` (integrated_lathe_controller.py:445). -/
def statusInterval : ℚ := 33/1000

/-- `pico_status_interval = 0.01` (integrated_lathe_controller.py:448). -/
def picoStatusInterval : ℚ := 1/100

/-- `safety_check_interval = 0.05` (integrated_lathe_controller.py:451). -/
def safetyCheckInterval : ℚ := 1/20

/-- `max_consecutive_errors = 10` (integrated_lathe_controller.py:458). -/
def maxConsecutiveErrors : ℕ := 10

/-- State of one bridge process: instance fields of `LatheController`
plus the locals of `run_control_loop` (integrated_lathe_controller.py:
39-70, 442-460).  `stopsSent` counts the `stop` commands written to the
controller link, so that "exactly once" properties are observable. -/
structure BridgeState where
  emergencyStop : Bool
  currentMode : String
  skillLevel : String
  handleWheelPosition : ℚ
  targetVelocity : ℚ
  activeAxis : String
  hapticActive : Bool
  hapticForce : ℚ
  vibFreq : ℚ
  yieldForce : ℚ
  lastStatusTime : ℚ
  lastPicoStatusReq : ℚ
  lastSafetyCheck : ℚ
  lastHeartbeatCheck : ℚ
  consecutiveErrors : ℕ
  lastGuiHeartbeat : ℚ
  guiConnected : Bool
  stopsSent : ℕ
  deriving DecidableEq

/-- `process_gui_command` (integrated_lathe_controller.py:263-367) in
the pico-serial deployment.  Only bridge-state effects are modelled;
serial writes other than `stop` leave the state unchanged, and a
`stop` write increments `stopsSent`.  The `emergency_stop` branch sends
`stop` after latching the flag. -/
def processGuiCommand (s : BridgeState) (c : GuiCmd) : BridgeState :=
  match c with
  | GuiCmd.statusRequest => s
  | GuiCmd.modeChange mode skillLevel => { s with currentMode := mode, skillLevel := skillLevel }
  | GuiCmd.emergencyStopCmd => { s with emergencyStop := true, stopsSent := s.stopsSent + 1 }
  | GuiCmd.motorControl action =>
    match action with
    | MotorAction.forward => s
    | MotorAction.reverse => s
    | MotorAction.stop => { s with stopsSent := s.stopsSent + 1 }
    | MotorAction.speed value => { s with targetVelocity := value }
    | MotorAction.position _ => s
  | GuiCmd.zeroPosition _ => s
  | GuiCmd.axisSelect axis => { s with activeAxis := axis }
  | GuiCmd.hapticFeedback active force freq yf =>
    { s with hapticActive := active, hapticForce := force, vibFreq := freq, yieldForce := yf }
  | GuiCmd.hapticVector _ _ _ => s
  | GuiCmd.unknown => s

/-- Environment of one `run_control_loop` iteration: the `time.time()`
sample, the value returned by `read_gui_commands`, whether processing
it raised an exception that escaped to the handler at
integrated_lathe_controller.py:478, and the position parsed by
`read_pico_response` when it returned a line. -/
structure BridgeInput where
  time : ℚ
  guiCmd : Option GuiCmd
  procError : Bool
  picoPos : Option ℚ
  deriving DecidableEq

/-- Step 1 of the `run_control_loop` body
(integrated_lathe_controller.py:467-479): process the command returned
by `read_gui_commands`; on success update the heartbeat stamp, mark
the client connected and reset `consecutive_errors`.  On a processing
exception those updates are skipped (they follow the call inside the
`try`); no branch ever increments `consecutive_errors`, mirroring the
source. -/
def bridgeStep1 (s : BridgeState) (i : BridgeInput) : BridgeState :=
  match i.guiCmd with
  | some c =>
    if i.procError then s
    else
      let sp := processGuiCommand s c
      { sp with lastGuiHeartbeat := i.time, guiConnected := true, consecutiveErrors := 0 }
  | none => s

/-- Step 2 (integrated_lathe_controller.py:481-484): read a Pico
response; on a fresh position, store it, push a status update and
stamp `last_status_time`. -/
def bridgeStep2 (s : BridgeState) (i : BridgeInput) : BridgeState :=
  match i.picoPos with
  | some p =>
    if p ≠ s.handleWheelPosition then
      { s with handleWheelPosition := p, lastStatusTime := i.time }
    else s
  | none => s

/-- Step 3 (integrated_lathe_controller.py:486-490): periodically send
`status` (not `stop`) to the Pico. -/
def bridgeStep3 (s : BridgeState) (i : BridgeInput) : BridgeState :=
  if i.time - s.lastPicoStatusReq > picoStatusInterval then
    { s with lastPicoStatusReq := i.time }
  else s

/-- Step 4 (integrated_lathe_controller.py:492-495): safety checks.
Both branches of `perform_safety_checks` are guarded by
`if self.motor_controller`, which is `None` here, so only the stamp
advances. -/
def bridgeStep4 (s : BridgeState) (i : BridgeInput) : BridgeState :=
  if i.time - s.lastSafetyCheck > safetyCheckInterval then
    { s with lastSafetyCheck := i.time }
  else s

/-- Step 5 (integrated_lathe_controller.py:497-503): once per
`heartbeat_check_interval`, if a client has ever connected and the last
heartbeat is older than `heartbeat_timeout`, latch the emergency stop
and send one `stop` to the controller link. -/
def bridgeStep5 (s : BridgeState) (i : BridgeInput) : BridgeState :=
  if i.time - s.lastHeartbeatCheck > heartbeatCheckInterval then
    let sLatched :=
      if s.guiConnected = true ∧ i.time - s.lastGuiHeartbeat > heartbeatTimeout then
        { s with emergencyStop := true, stopsSent := s.stopsSent + 1 }
      else s
    { sLatched with lastHeartbeatCheck := i.time }
  else s

/-- Step 6 (integrated_lathe_controller.py:505-508): fallback periodic
status push to the GUI. -/
def bridgeStep6 (s : BridgeState) (i : BridgeInput) : BridgeState :=
  if i.time - s.lastStatusTime > statusInterval then
    { s with lastStatusTime := i.time }
  else s

/-- One iteration of the body of `run_control_loop`
(integrated_lathe_controller.py:464-522), steps 1-7 in source order.
Step 7 (the local-motor-controller step) is skipped because
`motor_controller` is `None` in the pico-serial deployment. -/
def bridgeIter (s : BridgeState) (i : BridgeInput) : BridgeState :=
  bridgeStep6 (bridgeStep5 (bridgeStep4 (bridgeStep3 (bridgeStep2 (bridgeStep1 s i) i) i) i) i) i

/-- The `while not self.emergency_stop` loop
(integrated_lathe_controller.py:464): iterations run only while the
emergency-stop flag is clear. -/
def runBridge (s : BridgeState) (inputs : List BridgeInput) : BridgeState :=
  inputs.foldl (fun st i => if st.emergencyStop then st else bridgeIter st i) s

/-- A bridge state as set up by `__init__` and the prologue of
`run_control_loop` (integrated_lathe_controller.py:56-70, 444-460),
with all loop time stamps at 0. -/
def bridgeInit : BridgeState :=
  { emergencyStop := false
    currentMode := "manual"
    skillLevel := "beginner"
    handleWheelPosition := 0
    targetVelocity := 50
    activeAxis := "Z"
    hapticActive := false
    hapticForce := 0
    vibFreq := 10
    yieldForce := 50
    lastStatusTime := 0
    lastPicoStatusReq := 0
    lastSafetyCheck := 0
    lastHeartbeatCheck := 0
    consecutiveErrors := 0
    lastGuiHeartbeat := 0
    guiConnected := false
    stopsSent := 0 }

/-- The bridge state after a GUI client has connected at least once
(`gui_connected = True`) with the heartbeat stamp still at its initial
value. -/
def bridgeConnected : BridgeState := { bridgeInit with guiConnected := true }

/-- Eleven consecutive loop iterations, 0.2 s apart, in each of which a
command arrives but its processing raises: the scenario of claim C5
with more consecutive errors than `max_consecutive_errors`. -/
def errBurst : List BridgeInput :=
  (List.range 11).map fun n : ℕ =>
    { time := ((n : ℚ) + 1) / 5
      guiCmd := some GuiCmd.statusRequest
      procError := true
      picoPos := none }

/-- A controller state with the wall engaged at contact angle -1 deg
with positive penetration direction, encoder at count 0 (position 0),
so the penetration depth is exactly 1 deg. -/
def wallTestState : MotorState :=
  { mcInit false false with
      wallEngaged := true
      wallContactPositionDeg := -1
      wallDirection := 1
      controlMode := "virtual_wall"
      wallForceNewtons := 20 }

/-- Equality of the supervisor-relevant bridge fields: the
emergency-stop latch, the count of `stop` commands sent, the
connected-once flag, the heartbeat stamp and the error counter. -/
def SupEq (a b : BridgeState) : Prop :=
  a.emergencyStop = b.emergencyStop ∧
  a.stopsSent = b.stopsSent ∧
  a.guiConnected = b.guiConnected ∧
  a.lastGuiHeartbeat = b.lastGuiHeartbeat ∧
  a.consecutiveErrors = b.consecutiveErrors

/-! ## Theorems -/

theorem supEq_refl (a : BridgeState) : SupEq a a := ⟨rfl, rfl, rfl, rfl, rfl⟩

theorem supEq_trans {a b c : BridgeState} (h1 : SupEq a b) (h2 : SupEq b c) : SupEq a c :=
  ⟨h1.1.trans h2.1, h1.2.1.trans h2.2.1, h1.2.2.1.trans h2.2.2.1,
   h1.2.2.2.1.trans h2.2.2.2.1, h1.2.2.2.2.trans h2.2.2.2.2⟩

theorem bridgeStep1_none (s : BridgeState) (i : BridgeInput) (h : i.guiCmd = none) :
    bridgeStep1 s i = s := by
  unfold bridgeStep1; rw [h]

theorem bridgeStep1_procError (s : BridgeState) (i : BridgeInput) (h : i.procError = true) :
    bridgeStep1 s i = s := by
  unfold bridgeStep1; cases i.guiCmd <;> simp [h]

theorem bridgeStep2_pres (s : BridgeState) (i : BridgeInput) :
    SupEq (bridgeStep2 s i) s ∧ (bridgeStep2 s i).lastHeartbeatCheck = s.lastHeartbeatCheck := by
  unfold bridgeStep2 SupEq
  cases i.picoPos with
  | none => simp
  | some p => by_cases hp : p ≠ s.handleWheelPosition <;> simp [hp]

theorem bridgeStep3_pres (s : BridgeState) (i : BridgeInput) :
    SupEq (bridgeStep3 s i) s ∧ (bridgeStep3 s i).lastHeartbeatCheck = s.lastHeartbeatCheck := by
  unfold bridgeStep3 SupEq; split_ifs <;> simp

theorem bridgeStep4_pres (s : BridgeState) (i : BridgeInput) :
    SupEq (bridgeStep4 s i) s ∧ (bridgeStep4 s i).lastHeartbeatCheck = s.lastHeartbeatCheck := by
  unfold bridgeStep4 SupEq; split_ifs <;> simp

theorem bridgeStep6_pres (s : BridgeState) (i : BridgeInput) :
    SupEq (bridgeStep6 s i) s ∧ (bridgeStep6 s i).lastHeartbeatCheck = s.lastHeartbeatCheck := by
  unfold bridgeStep6 SupEq; split_ifs <;> simp

theorem bridgeStep5_latch (s : BridgeState) (i : BridgeInput)
    (hconn : s.guiConnected = true)
    (ht : i.time - s.lastGuiHeartbeat > heartbeatTimeout)
    (hc : i.time - s.lastHeartbeatCheck > heartbeatCheckInterval) :
    (bridgeStep5 s i).emergencyStop = true ∧ (bridgeStep5 s i).stopsSent = s.stopsSent + 1 := by
  simp only [bridgeStep5]
  rw [if_pos hc, if_pos ⟨hconn, ht⟩]
  exact ⟨rfl, rfl⟩

theorem bridgeStep5_noLatch (s : BridgeState) (i : BridgeInput)
    (h : i.time - s.lastGuiHeartbeat ≤ heartbeatTimeout) :
    SupEq (bridgeStep5 s i) s := by
  simp only [bridgeStep5, SupEq]
  split_ifs with h1 h2
  · exact absurd h2.2 (not_lt.mpr h)
  · simp
  · simp

theorem getLastQ_cons_or {α : Type} (xs : List α) (c : α) :
    (c :: xs).getLast? = xs.getLast?.or (some c) := by
  induction xs generalizing c with
  | nil => rfl
  | cons d ds ih =>
    rw [List.getLast?_cons_cons, ih d]
    cases ds.getLast? <;> rfl

theorem readGuiCommands_foldl (lines : List GuiLine) (acc : Option GuiCmd) :
    lines.foldl (fun lastValidCmd l => (parseGuiLine l).or lastValidCmd) acc
      = ((lines.filterMap parseGuiLine).getLast?).or acc := by
  induction lines generalizing acc with
  | nil => simp
  | cons l ls ih =>
    rw [List.foldl_cons, ih, List.filterMap_cons]
    cases h : parseGuiLine l with
    | none => simp
    | some c => rw [getLastQ_cons_or, Option.or_assoc]

/-- Claim C9: for every batch of lines read from the GUI socket in one
bridge-loop iteration, `read_gui_commands` yields exactly the last line
that parses (structured JSON or FORCE shorthand); earlier valid lines
are superseded, and lines that fail to parse do not affect the
result. -/
theorem C9_last_writer_wins :
    (∀ lines : List GuiLine,
        readGuiCommands lines = (lines.filterMap parseGuiLine).getLast?) ∧
    (∀ (pre post : List GuiLine) (bad : GuiLine), parseGuiLine bad = none →
        readGuiCommands (pre ++ bad :: post) = readGuiCommands (pre ++ post)) := by
  have main : ∀ lines : List GuiLine,
      readGuiCommands lines = (lines.filterMap parseGuiLine).getLast? := by
    intro lines
    rw [readGuiCommands, readGuiCommands_foldl, Option.or_none]
  refine ⟨main, fun pre post bad hbad => ?_⟩
  rw [main, main, List.filterMap_append, List.filterMap_append, List.filterMap_cons, hbad]

/-- Witness for C9 at a concrete batch: the second of two valid JSON
lines wins, and an interleaved empty line changes nothing. -/
theorem C9_last_writer_wins_witness :
    readGuiCommands [GuiLine.jsonLine (some GuiCmd.statusRequest), GuiLine.empty,
        GuiLine.jsonLine (some GuiCmd.emergencyStopCmd)]
      = some GuiCmd.emergencyStopCmd ∧
    readGuiCommands [GuiLine.jsonLine (some GuiCmd.statusRequest), GuiLine.empty]
      = readGuiCommands [GuiLine.jsonLine (some GuiCmd.statusRequest)] := by
  constructor
  · rw [C9_last_writer_wins.1]; rfl
  · exact C9_last_writer_wins.2 [GuiLine.jsonLine (some GuiCmd.statusRequest)] []
      GuiLine.empty rfl

/-- Claim C10: the encoder edge handler leaves the count unchanged when
the sampled channel-A level equals the stored one (only the stored
levels are updated), and changes it by exactly plus or minus one when
channel A differs. -/
theorem C10_encoder_edge (s : MotorState) (aState bState : Bool) :
    (aState = s.lastAState →
        (encoderCallback s aState bState).encoderCount = s.encoderCount) ∧
    (encoderCallback s aState bState).lastAState = aState ∧
    (encoderCallback s aState bState).lastBState = bState ∧
    (aState ≠ s.lastAState →
        (encoderCallback s aState bState).encoderCount = s.encoderCount + 1 ∨
        (encoderCallback s aState bState).encoderCount = s.encoderCount - 1) := by
  unfold encoderCallback
  refine ⟨fun h => ?_, ?_, ?_, fun h => ?_⟩ <;> split_ifs <;> simp_all

/-- Witness for C10: a channel-B-only event (A level unchanged) leaves
the count at 0; an A transition changes it by one. -/
theorem C10_encoder_edge_witness :
    (encoderCallback (mcInit true false) true true).encoderCount = 0 ∧
    ((encoderCallback (mcInit false false) true true).encoderCount = 0 + 1 ∨
     (encoderCallback (mcInit false false) true true).encoderCount = 0 - 1) := by
  refine ⟨(C10_encoder_edge (mcInit true false) true true).1 rfl, ?_⟩
  exact (C10_encoder_edge (mcInit false false) true true).2.2.2 (by simp [mcInit])

/-- Claim C8: the `pos <deg>` command sets position mode with the given
target and resets the PID integrator and last position error, so two
consecutive `pos 45` commands leave the integrator at 0 even from a
state with a nonzero accumulated integral. -/
theorem C8_pos_resets_integrator (s : MotorState) (_hNonzero : s.integralError ≠ 0) :
    (posCommand (posCommand s 45) 45).integralError = 0 ∧
    (posCommand (posCommand s 45) 45).lastPositionError = 0 ∧
    (posCommand (posCommand s 45) 45).targetPosition = 45 ∧
    (posCommand (posCommand s 45) 45).controlMode = "position" := by
  simp [posCommand]

/-- Witness for C8 from a state whose integrator holds 50. -/
theorem C8_pos_resets_integrator_witness :
    ({ mcInit false false with integralError := 50 } : MotorState).integralError ≠ 0 ∧
    (posCommand (posCommand { mcInit false false with integralError := 50 } 45) 45).integralError
      = 0 := by
  refine ⟨by norm_num, (C8_pos_resets_integrator _ (by norm_num)).1⟩

/-- Claim C7 (code bug): `set_haptic_feedback` stores the inverted
brake level `max(0, min(1, 1 - f))`, so the command `haptic 0` stores
full braking (1.0) and `haptic 1` stores no braking (0.0) -- the
opposite of the claim and of the function's own docstring. -/
theorem C7_haptic_inversion_bug :
    (setHapticFeedback (mcInit false false) 0).hapticBrakePercent = 1 ∧
    (setHapticFeedback (mcInit false false) 1).hapticBrakePercent = 0 ∧
    (1 : ℝ) ≠ 0 := by
  refine ⟨?_, ?_, one_ne_zero⟩ <;> norm_num [setHapticFeedback]

/-- Claim C1 (code bug): the command interpreter's `spring_wall` branch
passes four positional arguments to `set_spring_wall`, whose signature
accepts at most two besides `self`; every well-formed `spring_wall`
line therefore raises `TypeError`, is answered with an `ERROR:` line
instead of `OK:`, and leaves the controller state untouched -- in
particular both commands of the scenario `spring_wall 20 1`,
`spring_wall 0 0`. -/
theorem C1_spring_wall_arity_bug :
    springWallCallArgCount = 4 ∧
    setSpringWallParamCount = 2 ∧
    mainSpringWallCmd (mcInit false false) 20 1 10.0 50.0 0 0
      = (mcInit false false, Reply.err) ∧
    mainSpringWallCmd (mcInit false false) 0 0 10.0 50.0 0 0
      = (mcInit false false, Reply.err) ∧
    (mcInit false false).wallEngaged = false :=
  ⟨rfl, rfl, rfl, rfl, rfl⟩

theorem runBridge_halted (s : BridgeState) (inputs : List BridgeInput)
    (h : s.emergencyStop = true) : runBridge s inputs = s := by
  induction inputs with
  | nil => rfl
  | cons i rest ih =>
    show List.foldl _ _ _ = s
    rw [List.foldl_cons, if_pos h]
    exact ih

/-- Claim C4: once a GUI client has connected, an iteration whose
heartbeat check fires after more than the 5 s timeout without a valid
command latches the emergency stop, sends exactly one `stop` to the
controller link, and no later iteration of the loop runs (so the stop
is not reissued). -/
theorem C4_heartbeat_latch (s : BridgeState) (i : BridgeInput)
    (_hstop : s.emergencyStop = false) (hconn : s.guiConnected = true)
    (hnone : i.guiCmd = none)
    (htimeout : i.time - s.lastGuiHeartbeat > heartbeatTimeout)
    (hcheck : i.time - s.lastHeartbeatCheck > heartbeatCheckInterval) :
    (bridgeIter s i).emergencyStop = true ∧
    (bridgeIter s i).stopsSent = s.stopsSent + 1 ∧
    ∀ rest : List BridgeInput, runBridge (bridgeIter s i) rest = bridgeIter s i := by
  have hmain : (bridgeIter s i).emergencyStop = true ∧
      (bridgeIter s i).stopsSent = s.stopsSent + 1 := by
    unfold bridgeIter
    rw [bridgeStep1_none s i hnone]
    have h2 := bridgeStep2_pres s i
    have h3 := bridgeStep3_pres (bridgeStep2 s i) i
    have h4 := bridgeStep4_pres (bridgeStep3 (bridgeStep2 s i) i) i
    have hA : SupEq (bridgeStep4 (bridgeStep3 (bridgeStep2 s i) i) i) s :=
      supEq_trans h4.1 (supEq_trans h3.1 h2.1)
    have hAcheck : (bridgeStep4 (bridgeStep3 (bridgeStep2 s i) i) i).lastHeartbeatCheck
        = s.lastHeartbeatCheck := (h4.2.trans h3.2).trans h2.2
    have h5 := bridgeStep5_latch (bridgeStep4 (bridgeStep3 (bridgeStep2 s i) i) i) i
      (hA.2.2.1.trans hconn) (by rw [hA.2.2.2.1]; exact htimeout)
      (by rw [hAcheck]; exact hcheck)
    have h6 := bridgeStep6_pres (bridgeStep5 (bridgeStep4 (bridgeStep3 (bridgeStep2 s i) i) i) i) i
    exact ⟨h6.1.1.trans h5.1, (h6.1.2.1.trans h5.2).trans (by rw [hA.2.1])⟩
  exact ⟨hmain.1, hmain.2, fun rest => runBridge_halted _ rest hmain.1⟩

/-- Witness for C4: from the connected initial state, silence until
t = 6 s latches the stop, sends one `stop`, and a later iteration at
t = 7 s does not run. -/
theorem C4_heartbeat_latch_witness :
    (bridgeIter bridgeConnected ⟨6, none, false, none⟩).emergencyStop = true ∧
    (bridgeIter bridgeConnected ⟨6, none, false, none⟩).stopsSent = 1 ∧
    runBridge (bridgeIter bridgeConnected ⟨6, none, false, none⟩) [⟨7, none, false, none⟩]
      = bridgeIter bridgeConnected ⟨6, none, false, none⟩ := by
  have h := C4_heartbeat_latch bridgeConnected ⟨6, none, false, none⟩
    rfl rfl rfl (by norm_num [bridgeConnected, bridgeInit, heartbeatTimeout])
    (by norm_num [bridgeConnected, bridgeInit, heartbeatCheckInterval])
  exact ⟨h.1, by simpa using h.2.1, h.2.2 [⟨7, none, false, none⟩]⟩

theorem bridgeIter_error_pres (s : BridgeState) (i : BridgeInput)
    (herr : i.procError = true)
    (hhb : i.time - s.lastGuiHeartbeat ≤ heartbeatTimeout) :
    SupEq (bridgeIter s i) s := by
  unfold bridgeIter
  rw [bridgeStep1_procError s i herr]
  have h2 := bridgeStep2_pres s i
  have h3 := bridgeStep3_pres (bridgeStep2 s i) i
  have h4 := bridgeStep4_pres (bridgeStep3 (bridgeStep2 s i) i) i
  have hA : SupEq (bridgeStep4 (bridgeStep3 (bridgeStep2 s i) i) i) s :=
    supEq_trans h4.1 (supEq_trans h3.1 h2.1)
  have h5 := bridgeStep5_noLatch (bridgeStep4 (bridgeStep3 (bridgeStep2 s i) i) i) i
    (by rw [hA.2.2.2.1]; exact hhb)
  have h6 := bridgeStep6_pres (bridgeStep5 (bridgeStep4 (bridgeStep3 (bridgeStep2 s i) i) i) i) i
  exact supEq_trans h6.1 (supEq_trans h5 hA)

theorem runBridge_errors_pres (inputs : List BridgeInput) (s : BridgeState)
    (h : ∀ i ∈ inputs, i.procError = true ∧ i.time - s.lastGuiHeartbeat ≤ heartbeatTimeout) :
    SupEq (runBridge s inputs) s := by
  induction inputs generalizing s with
  | nil => exact supEq_refl s
  | cons i rest ih =>
    have hi := h i (List.mem_cons_self i rest)
    have hrest : ∀ j ∈ rest, j.procError = true ∧ j.time - s.lastGuiHeartbeat ≤ heartbeatTimeout :=
      fun j hj => h j (List.mem_cons_of_mem i hj)
    show SupEq (List.foldl (fun st k => if st.emergencyStop then st else bridgeIter st k)
        (if s.emergencyStop then s else bridgeIter s i) rest) s
    by_cases hstop : s.emergencyStop
    · rw [if_pos hstop]
      exact ih s hrest
    · rw [if_neg hstop]
      have hIter := bridgeIter_error_pres s i hi.1 hi.2
      have hrest2 : ∀ j ∈ rest, j.procError = true ∧
          j.time - (bridgeIter s i).lastGuiHeartbeat ≤ heartbeatTimeout := by
        intro j hj
        rw [hIter.2.2.2.1]
        exact hrest j hj
      exact supEq_trans (ih (bridgeIter s i) hrest2) hIter

/-- Claim C5 (code bug): `consecutive_errors` is initialized and reset
but never incremented and never compared against
`max_consecutive_errors`, so a run of eleven straight
command-processing errors (more than the threshold of ten) leaves the
emergency stop unlatched, the counter at zero, and no `stop` issued. -/
theorem C5_error_threshold_dead :
    errBurst.length = 11 ∧
    maxConsecutiveErrors < errBurst.length ∧
    (runBridge bridgeConnected errBurst).emergencyStop = false ∧
    (runBridge bridgeConnected errBurst).consecutiveErrors = 0 ∧
    (runBridge bridgeConnected errBurst).stopsSent = 0 := by
  have hall : ∀ i ∈ errBurst, i.procError = true ∧
      i.time - bridgeConnected.lastGuiHeartbeat ≤ heartbeatTimeout := by
    intro i hi
    rw [errBurst, List.mem_map] at hi
    obtain ⟨n, hn, rfl⟩ := hi
    rw [List.mem_range] at hn
    refine ⟨rfl, ?_⟩
    have hn10 : (n : ℚ) ≤ 10 := by exact_mod_cast Nat.lt_succ_iff.mp hn
    show ((n : ℚ) + 1) / 5 - 0 ≤ 5
    linarith
  have h := runBridge_errors_pres errBurst bridgeConnected hall
  have hlen : errBurst.length = 11 := by
    rw [errBurst, List.length_map, List.length_range]
  exact ⟨hlen, by rw [hlen]; norm_num [maxConsecutiveErrors],
    h.1, h.2.2.2.2, h.2.1⟩

theorem sqrt_four : Real.sqrt 4 = 2 := by
  rw [show (4 : ℝ) = 2 ^ 2 by norm_num, Real.sqrt_sq (by norm_num : (0 : ℝ) ≤ 2)]

theorem brakeDutyFloat_at_012 : brakeDutyFloat 0.12 = 1 := by
  simp only [brakeDutyFloat]
  rw [show min (0.12 : ℝ) 1.0 = 0.12 by norm_num]
  rw [if_pos (by norm_num : (0.12 : ℝ) > 0)]
  rw [show (0.12 : ℝ) / 0.03 = 4 by norm_num, sqrt_four]
  norm_num

theorem setMotorSpeed_brake (s : MotorState) (r : ℝ) (h : 0 < s.hapticBrakePercent) :
    setMotorSpeed s r =
      { s with targetVelocity := r, motorIn1 := true, motorIn2 := true,
               motorEnaDuty :=
                 pyInt (brakeDutyFloat s.hapticBrakePercent * (maxPwm - minPwm) + minPwm) } := by
  simp only [setMotorSpeed, applyHapticBrake]
  rw [if_neg (not_le.mpr h)]

/-- Claim C6 (code bug): with a nonzero brake level active the drive
override does set both direction outputs high and uses the
`sqrt(brake/0.03)` mapping, but the duty is clamped at 1.0, never at
`max_brake_scale = 0.6` (that field is defined and never read): at
brake level 0.12 the mapping gives 2, the code applies full-scale duty
1.0 (PWM 65535), exceeding the claimed cap of 0.6. -/
theorem C6_brake_cap_bug :
    (setMotorSpeed { mcInit false false with hapticBrakePercent := 0.12 } (-5)).motorIn1 = true ∧
    (setMotorSpeed { mcInit false false with hapticBrakePercent := 0.12 } (-5)).motorIn2 = true ∧
    brakeDutyFloat 0.12 = 1 ∧
    maxBrakeScale = 0.6 ∧
    maxBrakeScale < brakeDutyFloat 0.12 ∧
    (setMotorSpeed { mcInit false false with hapticBrakePercent := 0.12 } (-5)).motorEnaDuty
      = 65535 := by
  have hkey := setMotorSpeed_brake { mcInit false false with hapticBrakePercent := 0.12 } (-5)
    (by norm_num)
  rw [hkey]
  refine ⟨rfl, rfl, brakeDutyFloat_at_012, rfl, ?_, ?_⟩
  · rw [brakeDutyFloat_at_012]
    norm_num [maxBrakeScale]
  · show pyInt (brakeDutyFloat 0.12 * (maxPwm - minPwm) + minPwm) = 65535
    rw [brakeDutyFloat_at_012]
    rw [show (1 : ℝ) * (maxPwm - minPwm) + minPwm = 65535 by norm_num [maxPwm, minPwm]]
    unfold pyInt
    rw [if_pos (by norm_num : (0 : ℝ) ≤ 65535)]
    rw [show (65535 : ℝ) = ((65535 : ℤ) : ℝ) by norm_num, Int.floor_intCast]

theorem wallTextureFactor_at_25 : wallTextureFactor 25 = 1 := by
  unfold wallTextureFactor
  rw [show 2 * Real.pi * 10.0 * (((25 : ℤ) : ℝ) / 1000.0) = Real.pi / 2 by push_cast; ring]
  exact Real.sin_pi_div_two

theorem sqrt_two_lt_two : Real.sqrt 2 < 2 := by
  nlinarith [Real.sq_sqrt (by norm_num : (0 : ℝ) ≤ 2), Real.sqrt_nonneg 2]

/-- Counterexample to claim C3 as stated: for a wall engaged with
`freqHz = 5`, at penetration 1 deg and wall-clock 25 ms the vibration
term the code computes (`sin` at the hardcoded 10 Hz, here `sin(pi/2) = 1`)
differs from a texture at the configured 5 Hz
(`sin(pi/4) = sqrt 2 / 2`): the code's term equals the full spring
force, the spec's term does not. -/
theorem C3_texture_freq_counterexample :
    wallVibration 1 25 = wallSpringForce 1 ∧
    specTextureTerm 5 (wallSpringForce 1) 25 = wallSpringForce 1 * (Real.sqrt 2 / 2) ∧
    wallVibration 1 25 ≠ specTextureTerm 5 (wallSpringForce 1) 25 := by
  have hcode : wallVibration 1 25 = wallSpringForce 1 := by
    unfold wallVibration
    rw [wallTextureFactor_at_25]
    ring
  have hspec : specTextureTerm 5 (wallSpringForce 1) 25 = wallSpringForce 1 * (Real.sqrt 2 / 2) := by
    unfold specTextureTerm
    rw [show 2 * Real.pi * 5 * (((25 : ℤ) : ℝ) / 1000.0) = Real.pi / 4 by push_cast; ring]
    rw [Real.sin_pi_div_four]
  refine ⟨hcode, hspec, ?_⟩
  rw [hcode, hspec]
  have hF : wallSpringForce 1 = Real.pi / 18 := by
    unfold wallSpringForce
    ring
  rw [hF]
  intro heq
  have hpi := Real.pi_pos
  nlinarith [sqrt_two_lt_two, Real.sqrt_nonneg 2]

/-- Claim C3 amended: the texture term added while penetrating is
`springForce * sin(2*pi*10*t)`: its instantaneous amplitude equals the
current spring-force magnitude (bounded by it and attained, e.g. at
25 ms), but its frequency is fixed at 10 Hz (period 100 ms of
wall-clock time) regardless of the `freqHz` argument of the engage
command, which the firmware neither accepts nor stores. -/
theorem C3_texture_amended :
    (∀ (pen : ℝ) (t : ℤ), wallVibration pen t = wallSpringForce pen * wallTextureFactor t) ∧
    (∀ (pen : ℝ) (t : ℤ), |wallVibration pen t| ≤ |wallSpringForce pen|) ∧
    (∀ (pen : ℝ) (t : ℤ), wallVibration pen (t + 100) = wallVibration pen t) ∧
    (∀ pen : ℝ, wallVibration pen 25 = wallSpringForce pen) := by
  have heq : ∀ (pen : ℝ) (t : ℤ),
      wallVibration pen t = wallSpringForce pen * wallTextureFactor t := by
    intro pen t
    unfold wallVibration
    ring
  refine ⟨heq, ?_, ?_, ?_⟩
  · intro pen t
    rw [heq, abs_mul]
    calc |wallSpringForce pen| * |wallTextureFactor t|
        ≤ |wallSpringForce pen| * 1 :=
          mul_le_mul_of_nonneg_left (Real.abs_sin_le_one _) (abs_nonneg _)
      _ = |wallSpringForce pen| := mul_one _
  · intro pen t
    rw [heq, heq]
    have hfact : wallTextureFactor (t + 100) = wallTextureFactor t := by
      unfold wallTextureFactor
      rw [show 2 * Real.pi * 10.0 * (((t + 100 : ℤ) : ℝ) / 1000.0)
            = 2 * Real.pi * 10.0 * (((t : ℤ) : ℝ) / 1000.0) + 2 * Real.pi by push_cast; ring]
      exact Real.sin_add_two_pi _
    rw [hfact]
  · intro pen
    rw [heq, wallTextureFactor_at_25, mul_one]

theorem wallSpringForce_pos (pen : ℝ) (hp : 0 < pen) : 0 < wallSpringForce pen := by
  unfold wallSpringForce
  nlinarith [Real.pi_pos]

theorem wallSpringForce_lt (p1 p2 : ℝ) (h : p1 < p2) :
    wallSpringForce p1 < wallSpringForce p2 := by
  unfold wallSpringForce
  nlinarith [Real.pi_pos]

theorem wallTextureFactor_at_75 : wallTextureFactor 75 = -1 := by
  unfold wallTextureFactor
  rw [show 2 * Real.pi * 10.0 * (((75 : ℤ) : ℝ) / 1000.0) = Real.pi / 2 + Real.pi by
    push_cast; ring]
  rw [Real.sin_add_pi, Real.sin_pi_div_two]

theorem wallDutyCycle_texture_cancel (pen : ℝ) (t : ℤ) (h : wallTextureFactor t = -1) :
    wallDutyCycle pen t = 0 := by
  simp only [wallDutyCycle, wallRenderedForce, wallVibration]
  rw [h]
  rw [show wallSpringForce pen + wallSpringForce pen * 1.0 * (-1) = 0 by ring]
  norm_num [gearRatio]

theorem wallRenderedForce_pos_eq (pen : ℝ) (t : ℤ) (hp : 0 < pen)
    (ht : -1 < wallTextureFactor t) :
    wallRenderedForce pen t = wallSpringForce pen * (1 + wallTextureFactor t) := by
  have hF := wallSpringForce_pos pen hp
  simp only [wallRenderedForce, wallVibration]
  rw [max_eq_right (by nlinarith)]
  ring

theorem wallDutyArg_pos (pen : ℝ) (t : ℤ) (hp : 0 < pen) (ht : -1 < wallTextureFactor t) :
    0 < wallSpringForce pen * (1 + wallTextureFactor t) * 0.05 / gearRatio / 0.03 := by
  have hF := wallSpringForce_pos pen hp
  have htx : (0 : ℝ) < 1 + wallTextureFactor t := by linarith
  have hg : (0 : ℝ) < gearRatio := by norm_num [gearRatio]
  have h1 : (0 : ℝ) < wallSpringForce pen * (1 + wallTextureFactor t) * 0.05 := by nlinarith
  exact div_pos (div_pos h1 hg) (by norm_num)

theorem wallDutyCycle_pos_eq (pen : ℝ) (t : ℤ) (hp : 0 < pen)
    (ht : -1 < wallTextureFactor t) :
    wallDutyCycle pen t
      = min (Real.sqrt (wallSpringForce pen * (1 + wallTextureFactor t) * 0.05
          / gearRatio / 0.03)) 1.0 := by
  simp only [wallDutyCycle]
  rw [wallRenderedForce_pos_eq pen t hp ht]
  rw [if_pos (by
    have := wallDutyArg_pos pen t hp ht
    have hg : (0 : ℝ) < gearRatio := by norm_num [gearRatio]
    have hF := wallSpringForce_pos pen hp
    have htx : (0 : ℝ) < 1 + wallTextureFactor t := by linarith
    have h1 : (0 : ℝ) < wallSpringForce pen * (1 + wallTextureFactor t) * 0.05 := by nlinarith
    exact div_pos h1 hg)]

/-- Counterexample to claim C2 as stated: at the sample time 75 ms the
texture factor is `sin(3*pi/2) = -1`, which exactly cancels the spring
force, so the wall at contact -1 deg penetrated to 1 deg renders duty
cycle 0 (the PWM register gets only the deadband floor `min_pwm`), not
a strictly positive duty, and the duty is not strictly increasing from
penetration 1 deg to 2 deg. -/
theorem C2_duty_counterexample :
    wallPenetrationDeg wallTestState = 1 ∧
    wallTextureFactor 75 = -1 ∧
    wallDutyCycle 1 75 = 0 ∧
    ¬ (0 < wallDutyCycle 1 75) ∧
    ¬ (wallDutyCycle 1 75 < wallDutyCycle 2 75) ∧
    (virtualWallControl wallTestState 75).motorEnaDuty = 1000 := by
  have hpen : wallPenetrationDeg wallTestState = 1 := by
    unfold wallPenetrationDeg getPositionDegrees
    norm_num [wallTestState, mcInit, countsPerOutputRev, CPR, gearRatio]
  have htf := wallTextureFactor_at_75
  have hd1 := wallDutyCycle_texture_cancel 1 75 htf
  have hd2 := wallDutyCycle_texture_cancel 2 75 htf
  have hwall : (virtualWallControl wallTestState 75).motorEnaDuty = 1000 := by
    simp only [virtualWallControl]
    rw [if_neg (by simp [wallTestState])]
    rw [hpen]
    rw [if_neg (by norm_num [wallReleaseTolDeg])]
    show pyInt (minPwm + (maxPwm - minPwm) * wallDutyCycle 1 75) = 1000
    rw [hd1]
    rw [show minPwm + (maxPwm - minPwm) * (0 : ℝ) = 1000 by norm_num [minPwm, maxPwm]]
    unfold pyInt
    rw [if_pos (by norm_num : (0 : ℝ) ≤ 1000)]
    rw [show (1000 : ℝ) = ((1000 : ℤ) : ℝ) by norm_num, Int.floor_intCast]
  exact ⟨hpen, htf, hd1, by rw [hd1]; norm_num, by rw [hd1, hd2]; norm_num, hwall⟩

/-- Claim C2 amended: inside the 0.25 deg release deadband one tick
outputs zero drive while the wall stays engaged and the contact angle
is not recaptured, exactly as claimed; at penetration 1 deg the duty
cycle is strictly positive, and for a fixed sample time the duty cycle
is strictly increasing in penetration depth, both PROVIDED the texture
factor `sin(2*pi*10*t)` is above -1 at that sample time (at times where
it equals -1 the texture exactly cancels the spring force and the duty
is 0) and, for strict growth, the larger duty is still below the 1.0
clamp. -/
theorem C2_wall_hysteresis_amended :
    (∀ (s : MotorState) (t : ℤ), s.wallEngaged = true →
        wallPenetrationDeg s < wallReleaseTolDeg →
        (virtualWallControl s t).motorEnaDuty = 0 ∧
        (virtualWallControl s t).wallEngaged = true ∧
        (virtualWallControl s t).wallContactPositionDeg = s.wallContactPositionDeg) ∧
    (∀ t : ℤ, -1 < wallTextureFactor t → 0 < wallDutyCycle 1 t) ∧
    (∀ (t : ℤ) (p1 p2 : ℝ), -1 < wallTextureFactor t → 0 < p1 → p1 < p2 →
        wallDutyCycle p2 t < 1 → wallDutyCycle p1 t < wallDutyCycle p2 t) := by
  refine ⟨?_, ?_, ?_⟩
  · intro s t heng hpen
    simp only [virtualWallControl]
    rw [if_neg (by simp [heng])]
    rw [if_pos hpen]
    exact ⟨rfl, heng, rfl⟩
  · intro t ht
    rw [wallDutyCycle_pos_eq 1 t (by norm_num) ht]
    exact lt_min (Real.sqrt_pos.mpr (wallDutyArg_pos 1 t (by norm_num) ht)) (by norm_num)
  · intro t p1 p2 ht hp1 h12 hclamp
    have hp2 : (0 : ℝ) < p2 := hp1.trans h12
    rw [wallDutyCycle_pos_eq p2 t hp2 ht] at hclamp
    rw [wallDutyCycle_pos_eq p1 t hp1 ht, wallDutyCycle_pos_eq p2 t hp2 ht]
    rw [show (1.0 : ℝ) = 1 by norm_num] at hclamp ⊢
    have hA1 : (0 : ℝ) ≤ wallSpringForce p1 * (1 + wallTextureFactor t) * 0.05
        / gearRatio / 0.03 := le_of_lt (wallDutyArg_pos p1 t hp1 ht)
    have hAlt : wallSpringForce p1 * (1 + wallTextureFactor t) * 0.05 / gearRatio / 0.03
        < wallSpringForce p2 * (1 + wallTextureFactor t) * 0.05 / gearRatio / 0.03 := by
      have hFlt := wallSpringForce_lt p1 p2 h12
      have htx : (0 : ℝ) < 1 + wallTextureFactor t := by linarith
      have h1 := mul_lt_mul_of_pos_right hFlt htx
      rw [show gearRatio = (30 : ℝ) from by norm_num [gearRatio]]
      ring_nf
      ring_nf at h1
      nlinarith [h1]
    have hsq2 : Real.sqrt (wallSpringForce p2 * (1 + wallTextureFactor t) * 0.05
        / gearRatio / 0.03) < 1 := by
      by_contra hcon
      push_neg at hcon
      rw [min_eq_right hcon] at hclamp
      exact absurd hclamp (lt_irrefl 1)
    have hsqlt := Real.sqrt_lt_sqrt hA1 hAlt
    rw [min_eq_left (le_of_lt hsq2), min_eq_left (le_of_lt (hsqlt.trans hsq2))]
    exact hsqlt

/-- Witness for the amended C2 at concrete inputs: penetration 0.1 deg
(inside the deadband) gives zero drive; at sample time 0 (texture
factor 0) the duty at 1 deg is positive and smaller than the duty at
2 deg. -/
theorem C2_wall_hysteresis_amended_witness :
    (virtualWallControl { wallTestState with wallContactPositionDeg := -0.1 } 0).motorEnaDuty
      = 0 ∧
    0 < wallDutyCycle 1 0 ∧
    wallDutyCycle 1 0 < wallDutyCycle 2 0 := by
  have htex0 : wallTextureFactor 0 = 0 := by
    unfold wallTextureFactor
    rw [show 2 * Real.pi * 10.0 * (((0 : ℤ) : ℝ) / 1000.0) = 0 by push_cast; ring]
    exact Real.sin_zero
  have ht : (-1 : ℝ) < wallTextureFactor 0 := by rw [htex0]; norm_num
  have hpen : wallPenetrationDeg { wallTestState with wallContactPositionDeg := -0.1 }
      < wallReleaseTolDeg := by
    unfold wallPenetrationDeg getPositionDegrees
    norm_num [wallTestState, mcInit, countsPerOutputRev, CPR, gearRatio, wallReleaseTolDeg]
  have hclamp : wallDutyCycle 2 0 < 1 := by
    rw [wallDutyCycle_pos_eq 2 0 (by norm_num) ht]
    have harg : wallSpringForce 2 * (1 + wallTextureFactor 0) * 0.05 / gearRatio / 0.03
        < 1 := by
      rw [htex0, show gearRatio = (30 : ℝ) from by norm_num [gearRatio]]
      unfold wallSpringForce
      ring_nf
      linarith [Real.pi_lt_d2]
    have hs : Real.sqrt (wallSpringForce 2 * (1 + wallTextureFactor 0) * 0.05
        / gearRatio / 0.03) < 1 :=
      (Real.sqrt_lt' (by norm_num)).mpr (by rw [one_pow]; exact harg)
    exact lt_of_le_of_lt (min_le_left _ _) hs
  exact ⟨(C2_wall_hysteresis_amended.1 _ 0 rfl hpen).1,
    C2_wall_hysteresis_amended.2.1 0 ht,
    C2_wall_hysteresis_amended.2.2 0 1 2 ht (by norm_num) (by norm_num) hclamp⟩

end Haptics
